import Mathlib

/-!
Verification of the ersilia model test module (ersilia/publish/test.py) and
the dockerhub lazy fetcher (ersilia/hub/fetch/lazy_fetchers/dockerhub.py).

Python runtime values that can appear in a model output record are embedded
as the inductive type PyVal: absent (None), integers, floats (modelled as
exact rationals), strings, and lists.  Fallible Python code is embedded as
Except; Python exceptions raised by builtins (TypeError, ZeroDivisionError)
are a separate error kind from the test module exceptions.
-/

/-- Decidable equality of Except values, for evaluating the embedded
checks on concrete inputs. -/
instance instDecEqExcept {e a : Type} [DecidableEq e] [DecidableEq a] :
    DecidableEq (Except e a) := fun x y =>
  match x, y with
  | .ok v, .ok w =>
    if h : v = w then isTrue (by rw [h]) else isFalse (fun hc => h (Except.ok.inj hc))
  | .error v, .error w =>
    if h : v = w then isTrue (by rw [h]) else isFalse (fun hc => h (Except.error.inj hc))
  | .ok _, .error _ => isFalse (fun hc => Except.noConfusion hc)
  | .error _, .ok _ => isFalse (fun hc => Except.noConfusion hc)

/-- A scalar Python value occurring as an element of a list output: None,
int, float (modelled exactly as a rational), or str.  The data model of the
repository has ordered lists of number-or-string as the only compound
output values, so list elements are scalars. -/
inductive PyScalar where
  | snone : PyScalar
  | sint : ℤ → PyScalar
  | sfloat : ℚ → PyScalar
  | sstr : String → PyScalar
deriving DecidableEq, Repr

/-- A Python value occurring in a model output record: None, int, float
(modelled exactly as a rational), str, or a list of scalars. -/
inductive PyVal where
  | vnone : PyVal
  | vint : ℤ → PyVal
  | vfloat : ℚ → PyVal
  | vstr : String → PyVal
  | vlist : List PyScalar → PyVal
deriving DecidableEq, Repr

/-- The scalar value as a plain value. -/
def PyScalar.toVal : PyScalar → PyVal
  | .snone => .vnone
  | .sint n => .vint n
  | .sfloat q => .vfloat q
  | .sstr s => .vstr s

/-- Python equality between two scalar values: numbers compare by numeric
value across int and float, None only equals None, strings by content. -/
def pyEqScalar : PyScalar → PyScalar → Bool
  | .snone, .snone => true
  | .sint a, .sint b => decide (a = b)
  | .sint a, .sfloat q => decide ((a : ℚ) = q)
  | .sfloat q, .sint a => decide (q = (a : ℚ))
  | .sfloat p, .sfloat q => decide (p = q)
  | .sstr s, .sstr t => decide (s = t)
  | _, _ => false

/-- Elementwise Python equality of two lists (lengths must agree). -/
def pyEqList : List PyScalar → List PyScalar → Bool
  | [], [] => true
  | x :: xs, y :: ys => pyEqScalar x y && pyEqList xs ys
  | _, _ => false

/-- Python equality between two values, as used by the test module:
numbers compare by numeric value across int and float, None only equals
None, strings compare by content, lists compare elementwise. -/
def pyEq : PyVal → PyVal → Bool
  | .vnone, .vnone => true
  | .vint a, .vint b => decide (a = b)
  | .vint a, .vfloat q => decide ((a : ℚ) = q)
  | .vfloat q, .vint a => decide (q = (a : ℚ))
  | .vfloat p, .vfloat q => decide (p = q)
  | .vstr s, .vstr t => decide (s = t)
  | .vlist xs, .vlist ys => pyEqList xs ys
  | _, _ => false

/-- Whether the value is a number (int or float) equal to zero; this is the
Python test v == 0.0 applied to an arbitrary value. -/
def isZeroNum : PyVal → Bool
  | .vint n => decide (n = 0)
  | .vfloat q => decide (q = 0)
  | _ => false

/-- Whether the value is a number, the Python test isinstance(v, (float, int)). -/
def isNum : PyVal → Bool
  | .vint _ => true
  | .vfloat _ => true
  | _ => false

/-- Whether the value is a float, the Python test isinstance(v, float). -/
def isFloat : PyVal → Bool
  | .vfloat _ => true
  | _ => false

/-- The numeric value of an int or float, when the value is numeric. -/
def toRat? : PyVal → Option ℚ
  | .vint n => some ((n : ℚ))
  | .vfloat q => some q
  | _ => Option.none

/-- Same runtime type: the Python test isinstance(v1, type(v2)) for the
disjoint types NoneType, int, float, str, list (int and float are distinct
runtime types in Python). -/
def sameType : PyVal → PyVal → Bool
  | .vnone, .vnone => true
  | .vint _, .vint _ => true
  | .vfloat _, .vfloat _ => true
  | .vstr _, .vstr _ => true
  | .vlist _, .vlist _ => true
  | _, _ => false

/-- A Python builtin exception escaping the comparison helpers: TypeError
from arithmetic or from the string scorer on non-string arguments, and
ZeroDivisionError from the relative-difference formula. -/
inductive PyErr where
  | typeError : PyErr
  | zeroDivisionError : PyErr
deriving DecidableEq, Repr

/-- DIFFERENCE_THRESHOLD = 5 from ersilia/publish/test.py. -/
def DIFFERENCE_THRESHOLD : ℚ := 5

/-- NUM_SAMPLES = 5 from ersilia/publish/test.py. -/
def NUM_SAMPLES : ℕ := 5

/-- ModelTester._is_below_difference_threshold from ersilia/publish/test.py.
Returns whether two outputs are consistent under the relative-difference
rule.  Mirrors the source branch for branch: first the test
output1 == 0.0 or output2 == 0.0 (returning output1 == output2), then the
None test (returning output1 == output2), else the formula
100 * abs(o1 - o2) / ((o1 + o2) / 2) < DIFFERENCE_THRESHOLD, which in
Python raises ZeroDivisionError when o1 + o2 == 0 and TypeError when a
non-numeric operand reaches the subtraction. -/
def is_below_difference_threshold (output1 output2 : PyVal) : Except PyErr Bool :=
  if isZeroNum output1 || isZeroNum output2 then .ok (pyEq output1 output2)
  else if output1 = .vnone ∨ output2 = .vnone then .ok (pyEq output1 output2)
  else
    match toRat? output1, toRat? output2 with
    | some a, some b =>
      if a + b = 0 then .error .zeroDivisionError
      else .ok (decide (100 * |a - b| / ((a + b) / 2) < DIFFERENCE_THRESHOLD))
    | _, _ => .error .typeError

/-- ModelTester._compare_output_strings from ersilia/publish/test.py.
Returns 100 when both values are None, otherwise delegates to the external
similarity scorer fuzz.ratio, which raises TypeError on non-string
arguments.  The scorer itself is an external collaborator and is a
parameter of the embedding. -/
def compare_output_strings (fuzz : String → String → ℚ) (output1 output2 : PyVal) :
    Except PyErr ℚ :=
  if output1 = .vnone ∧ output2 = .vnone then .ok 100
  else
    match output1, output2 with
    | .vstr a, .vstr b => .ok (fuzz a b)
    | _, _ => .error .typeError

/-- The exceptions raised by ModelTester.check_consistent_output, plus an
escaping Python builtin exception. -/
inductive CheckError where
  | inconsistentOutputTypes : CheckError
  | inconsistentOutputs : CheckError
  | missingOutputs : CheckError
  | pyErr : PyErr → CheckError
deriving DecidableEq, Repr

/-- One output record of a run: the item["output"] dict, as an ordered
association list (Python dicts preserve insertion order). -/
abbrev PyRecord := List (String × PyVal)

/-- The numeric comparison step of check_consistent_output: raise
InconsistentOutputs when _is_below_difference_threshold is false. -/
def numCheck (v1 v2 : PyVal) : Except CheckError Unit :=
  match is_below_difference_threshold v1 v2 with
  | .ok true => .ok ()
  | .ok false => .error .inconsistentOutputs
  | .error e => .error (.pyErr e)

/-- The string comparison step of check_consistent_output: raise
InconsistentOutputs when _compare_output_strings is at most 0.95 (the
literal threshold written inline in the source). -/
def strCheck (fuzz : String → String → ℚ) (v1 v2 : PyVal) : Except CheckError Unit :=
  match compare_output_strings fuzz v1 v2 with
  | .ok r => if r ≤ 0.95 then .error .inconsistentOutputs else .ok ()
  | .error e => .error (.pyErr e)

/-- The element loop of the list branch of check_consistent_output:
for elem1, elem2 in zip(ls1, ls2), a float first element goes through the
relative-difference rule, any other first element through the string rule;
zip stops at the shorter list. -/
def checkElems (fuzz : String → String → ℚ) :
    List PyScalar → List PyScalar → Except CheckError Unit
  | e1 :: t1, e2 :: t2 =>
    match (if isFloat e1.toVal then numCheck e1.toVal e2.toVal
           else strCheck fuzz e1.toVal e2.toVal) with
    | .ok () => checkElems fuzz t1 t2
    | .error e => .error e
  | _, _ => .ok ()

/-- The body of the key loop of check_consistent_output for one pair of
values: first the runtime-type test isinstance(o1[k1], type(o2[k2])), then
the None skip on the first value, then the numeric, list and string
branches.  The catch-all of the final match is unreachable: the type test
guarantees the two values share a constructor. -/
def checkPair (fuzz : String → String → ℚ) (v1 v2 : PyVal) : Except CheckError Unit :=
  if !sameType v1 v2 then .error .inconsistentOutputTypes
  else if v1 = .vnone then .ok ()
  else if isNum v1 then numCheck v1 v2
  else
    match v1, v2 with
    | .vlist l1, .vlist l2 => checkElems fuzz l1 l2
    | _, _ => strCheck fuzz v1 v2

/-- The key loop of check_consistent_output over one row pair: the source
zips the two key lists and indexes each record at its own key, which is the
zip of the two entry lists in insertion order. -/
def checkPairs (fuzz : String → String → ℚ) :
    List ((String × PyVal) × (String × PyVal)) → Except CheckError Unit
  | [] => .ok ()
  | (kv1, kv2) :: rest =>
    match checkPair fuzz kv1.2 kv2.2 with
    | .ok () => checkPairs fuzz rest
    | .error e => .error e

/-- One row pair of check_consistent_output. -/
def checkRecord (fuzz : String → String → ℚ) (o1 o2 : PyRecord) : Except CheckError Unit :=
  checkPairs fuzz (o1.zip o2)

/-- The row loop of check_consistent_output over zipped = list(zip(result, result2)). -/
def checkRows (fuzz : String → String → ℚ) : List (PyRecord × PyRecord) → Except CheckError Unit
  | [] => .ok ()
  | (r1, r2) :: rest =>
    match checkRecord fuzz r1 r2 with
    | .ok () => checkRows fuzz rest
    | .error e => .error e

/-- ModelTester.check_consistent_output from ersilia/publish/test.py, over
the two run results (each row reduced to its output record).  The returned
Bool is the consistent_output flag after the call: it starts false, and the
source sets it to true after the comparison loops and before the row-count
test, so a MissingOutputs error leaves it true while a comparison error
leaves it false.  The row-count test compares numSamples with
len(zipped). -/
def check_consistent_output (fuzz : String → String → ℚ)
    (result result2 : List PyRecord) (numSamples : ℕ) : Bool × Option CheckError :=
  let zipped := result.zip result2
  match checkRows fuzz zipped with
  | .error e => (false, some e)
  | .ok () =>
    if numSamples ≠ zipped.length then (true, some .missingOutputs)
    else (true, Option.none)

/-!
Metadata checks of ModelTester (ersilia/publish/test.py).  The model card
is the record under key card in the information file.  The Task, Output
and shape fields hold strings; the Input and Output Type fields hold JSON
lists of strings, which is why the source compares them against lists of
one-element lists.
-/

/-- The model card from the information file. -/
structure ModelCard where
  Identifier : String
  Slug : String
  Description : String
  Task : String
  Input : List String
  InputShape : String
  Output : String
  OutputType : List String
  OutputShape : String
deriving DecidableEq, Repr

/-- The metadata exceptions of the test module (payloads of the source
exceptions beyond the field name are dropped). -/
inductive TestError where
  | wrongCardIdentifier : TestError
  | emptyField : String → TestError
  | invalidEntry : String → TestError
deriving DecidableEq, Repr

/-- When sep is an initial segment of cs, the remainder of cs after it. -/
def dropSep : List Char → List Char → Option (List Char)
  | [], cs => some cs
  | _ :: _, [] => Option.none
  | p :: ps, c :: cs => if p = c then dropSep ps cs else Option.none

/-- Python str.split with an explicit nonempty separator, over char lists,
with fuel for structural recursion; called with fuel at least the length
of the list, which suffices because the separator is nonempty. -/
def splitCharsFuel (sep : List Char) : ℕ → List Char → List (List Char)
  | 0, _ => [[]]
  | _ + 1, [] => [[]]
  | fuel + 1, c :: cs =>
    match dropSep sep (c :: cs) with
    | some rest => [] :: splitCharsFuel sep fuel rest
    | Option.none =>
      match splitCharsFuel sep fuel cs with
      | [] => [[c]]
      | h :: t => (c :: h) :: t

/-- Python s.split(sep) for the nonempty separator used by the source. -/
def pySplit (s sep : String) : List String :=
  (splitCharsFuel sep.toList s.toList.length s.toList).map (fun cs => String.mk cs)

/-- The Python substring test sep in s for a nonempty separator: s splits
into at least two parts on sep exactly when sep occurs in s. -/
def containsSep (s sep : String) : Bool := (pySplit s sep).length ≥ 2

/-- ModelTester._check_model_id: the card Identifier must equal the model
id under test. -/
def check_model_id (model_id : String) (card : ModelCard) : Except TestError Unit :=
  if card.Identifier ≠ model_id then .error .wrongCardIdentifier else .ok ()

/-- ModelTester._check_model_slug: the Slug string must be truthy, that is
non-empty. -/
def check_model_slug (card : ModelCard) : Except TestError Unit :=
  if card.Slug = "" then .error (.emptyField "slug") else .ok ()

/-- ModelTester._check_model_description: the Description string must be
non-empty. -/
def check_model_description (card : ModelCard) : Except TestError Unit :=
  if card.Description = "" then .error (.emptyField "Description") else .ok ()

/-- The valid task vocabulary of _check_model_task. -/
def valid_tasks : List String :=
  ["Classification", "Regression", "Generative", "Representation",
   "Similarity", "Clustering", "Dimensionality reduction"]

/-- ModelTester._check_model_task, mirroring the source exactly: when the
separator occurs in the Task string the string is split on it and each
part must be in the vocabulary; otherwise the source iterates over the
Task string itself, so each iterated item is a one-character string, which
is compared against the vocabulary. -/
def check_model_task (card : ModelCard) : Except TestError Unit :=
  let sep := ", "
  let tasks : List String :=
    if containsSep card.Task sep then pySplit card.Task sep
    else card.Task.toList.map (fun c => String.singleton c)
  if tasks.all (fun t => valid_tasks.contains t) then .ok ()
  else .error (.invalidEntry "Task")

/-- The valid input vocabulary of _check_model_input: a list of
one-element lists, matching the JSON shape of the Input field. -/
def valid_inputs : List (List String) := [["Compound"], ["Protein"], ["Text"]]

/-- ModelTester._check_model_input: the Input field must be one of the
one-element lists of the vocabulary. -/
def check_model_input (card : ModelCard) : Except TestError Unit :=
  if card.Input ∉ valid_inputs then .error (.invalidEntry "Input") else .ok ()

/-- The valid input shape vocabulary of _check_model_input_shape. -/
def valid_input_shapes : List String :=
  ["Single", "Pair", "List", "Pair of Lists", "List of Lists"]

/-- ModelTester._check_model_input_shape. -/
def check_model_input_shape (card : ModelCard) : Except TestError Unit :=
  if card.InputShape ∉ valid_input_shapes then .error (.invalidEntry "Input Shape")
  else .ok ()

/-- The valid output vocabulary of _check_model_output. -/
def valid_outputs : List String :=
  ["Boolean", "Compound", "Descriptor", "Distance", "Experimental value",
   "Image", "Other value", "Probability", "Protein", "Score", "Text"]

/-- ModelTester._check_model_output, with the same split-or-iterate shape
as _check_model_task. -/
def check_model_output (card : ModelCard) : Except TestError Unit :=
  let sep := ", "
  let outputs : List String :=
    if containsSep card.Output sep then pySplit card.Output sep
    else card.Output.toList.map (fun c => String.singleton c)
  if outputs.all (fun t => valid_outputs.contains t) then .ok ()
  else .error (.invalidEntry "Output")

/-- The valid output type vocabulary of _check_model_output_type. -/
def valid_output_types : List (List String) := [["String"], ["Float"], ["Integer"]]

/-- ModelTester._check_model_output_type. -/
def check_model_output_type (card : ModelCard) : Except TestError Unit :=
  if card.OutputType ∉ valid_output_types then .error (.invalidEntry "Output Type")
  else .ok ()

/-- The valid output shape vocabulary of _check_model_output_shape. -/
def valid_output_shapes : List String :=
  ["Single", "List", "Flexible List", "Matrix", "Serializable Object"]

/-- ModelTester._check_model_output_shape. -/
def check_model_output_shape (card : ModelCard) : Except TestError Unit :=
  if card.OutputShape ∉ valid_output_shapes then .error (.invalidEntry "Output Shape")
  else .ok ()

/-- ModelTester.check_information: the nine metadata checks in source
order, stopping at the first failure. -/
def check_information (model_id : String) (card : ModelCard) : Except TestError Unit := do
  check_model_id model_id card
  check_model_slug card
  check_model_description card
  check_model_task card
  check_model_input card
  check_model_input_shape card
  check_model_output card
  check_model_output_type card
  check_model_output_shape card

/-!
The test orchestrator, ModelTester.run, with the external collaborators
abstracted: the single-input and example-batch model invocations are black
boxes whose only observable relevant to the report is whether they
complete, and the two duplicate runs feeding check_consistent_output are
given as run results.  The run under verification is the one with an
output file, in which each completing check sets its flag.
-/

/-- The record written by ModelTester.make_output. -/
structure TestReport where
  size_kb : ℚ
  size_mb : ℚ
  size_gb : ℚ
  time_seconds : ℚ
  basic_checks_passed : Bool
  single_input_ok : Bool
  example_input_ok : Bool
  outputs_consistent : Bool
  bash_ok : Bool
deriving DecidableEq, Repr

/-- ModelTester.make_output: derives KB, MB and GB from the byte size and
records the elapsed time and the five flags of the tester state. -/
def make_output (model_size t : ℚ)
    (information_check single_input example_input consistent_output run_using_bash : Bool) :
    TestReport :=
  { size_kb := model_size / 1024
    size_mb := model_size / 1024 / 1024
    size_gb := model_size / 1024 / 1024 / 1024
    time_seconds := t
    basic_checks_passed := information_check
    single_input_ok := single_input
    example_input_ok := example_input
    outputs_consistent := consistent_output
    bash_ok := run_using_bash }

/-- The error terminating a run of the test sequence. -/
inductive RunError where
  | metadata : TestError → RunError
  | singleRunFailed : RunError
  | exampleRunFailed : RunError
  | consistency : CheckError → RunError
deriving DecidableEq, Repr

/-- ModelTester.run with an output file, over the abstracted
collaborators.  The flag arguments of make_output mirror the tester
state at the end of the sequence: information_check, single_input and
example_input are true because each check completed with an output file
present; consistent_output is whatever check_consistent_output left;
run_using_bash is false because no statement in the source ever assigns
it after its initialisation to False. -/
def model_tester_run (model_id : String) (card : ModelCard)
    (fuzz : String → String → ℚ) (single_ok example_ok : Bool)
    (res1 res2 : List PyRecord) (repo_size elapsed : ℚ) :
    Except RunError TestReport :=
  match check_information model_id card with
  | .error e => .error (.metadata e)
  | .ok () =>
    if !single_ok then .error .singleRunFailed
    else if !example_ok then .error .exampleRunFailed
    else
      match check_consistent_output fuzz res1 res2 NUM_SAMPLES with
      | (_, some e) => .error (.consistency e)
      | (flag, Option.none) =>
        .ok (make_output repo_size elapsed true true true flag false)

/-!
ModelDockerHubFetcher.modify_information
(ersilia/hub/fetch/lazy_fetchers/dockerhub.py).  The three files it reads
are modelled as Option arguments (none means the file is missing, the one
case whose FileNotFoundError the source catches); the result is the final
content of the information file on disk.
-/

/-- Lookup of a key in an ordered record, first occurrence. -/
def dictGet (d : List (String × PyVal)) (k : String) : Option PyVal :=
  match d with
  | [] => Option.none
  | (k2, v) :: rest => if k2 = k then some v else dictGet rest k

/-- Python dict assignment d[k] = v on an ordered record: overwrite in
place when the key is present, append otherwise. -/
def dictSet (d : List (String × PyVal)) (k : String) (v : PyVal) :
    List (String × PyVal) :=
  if d.any (fun kv => kv.1 = k) then
    d.map (fun kv => if kv.1 = k then (k, v) else kv)
  else d ++ [(k, v)]

/-- ModelDockerHubFetcher.modify_information: reads the service class file
(stripping the content), the size file and the information file, returning
early without writing when any of the three is missing; otherwise sets the
two keys service_class and size on the record and writes it back.  The
returned value is the information file content after the call. -/
def modify_information (service_class_file : Option String) (size_file : Option PyVal)
    (information_file : Option (List (String × PyVal))) :
    Option (List (String × PyVal)) :=
  match service_class_file with
  | Option.none => information_file
  | some sc =>
    match size_file with
    | Option.none => information_file
    | some size =>
      match information_file with
      | Option.none => information_file
      | some data =>
        some (dictSet (dictSet data "service_class" (.vstr sc.trim)) "size" size)

/-!
Concrete instances used to evaluate the embedded checks, and a predicate
singling out the run results of the end-to-end scenario (every value a
scalar number or None).
-/

/-- A concrete similarity scorer for evaluating the checker on inputs
whose comparison never consults the scorer. -/
def fuzz0 : String → String → ℚ := fun _ _ => 0

/-- A model card passing all nine metadata checks of the source: the Task
and Output fields must contain the separator, because a single-entry value
is iterated character by character and rejected. -/
def sample_card : ModelCard :=
  { Identifier := "eos0t01"
    Slug := "slug"
    Description := "desc"
    Task := "Classification, Regression"
    Input := ["Compound"]
    InputShape := "Single"
    Output := "Score, Probability"
    OutputType := ["Float"]
    OutputShape := "Single" }

/-- n identical one-key rows whose value is None. -/
def null_rows (n : ℕ) : List PyRecord := List.replicate n [("key1", PyVal.vnone)]

/-- Whether a value is a scalar number or None. -/
def scalarNumeric : PyVal → Bool
  | .vnone => true
  | .vint _ => true
  | .vfloat _ => true
  | _ => false

/-- Whether every value of every record of a run result is a scalar number
or None, the shape of the end-to-end scenario (identical numeric outputs). -/
def NumericRecords (rs : List PyRecord) : Bool :=
  rs.all (fun r => r.all (fun kv => scalarNumeric kv.2))

/-!
Helper lemmas: the shapes of the errors each comparison stage can raise,
self-comparison of numeric values, and ordered-record lookup after
assignment.
-/

/-- A numeric-step error is InconsistentOutputs or an escaped Python
exception: the numeric step raises no other kind. -/
theorem numCheck_error_shape (v1 v2 : PyVal) (e : CheckError)
    (h : numCheck v1 v2 = .error e) :
    e = .inconsistentOutputs ∨ ∃ pe, e = .pyErr pe := by
  unfold numCheck at h
  split at h
  · exact absurd h (by simp)
  · injection h with h
    exact Or.inl h.symm
  · injection h with h
    exact Or.inr ⟨_, h.symm⟩

/-- A string-step error is InconsistentOutputs or an escaped Python
exception. -/
theorem strCheck_error_shape (fuzz : String → String → ℚ) (v1 v2 : PyVal) (e : CheckError)
    (h : strCheck fuzz v1 v2 = .error e) :
    e = .inconsistentOutputs ∨ ∃ pe, e = .pyErr pe := by
  unfold strCheck at h
  split at h
  · split at h
    · injection h with h
      exact Or.inl h.symm
    · exact absurd h (by simp)
  · injection h with h
    exact Or.inr ⟨_, h.symm⟩

/-- An element-loop error is InconsistentOutputs or an escaped Python
exception. -/
theorem checkElems_error_shape (fuzz : String → String → ℚ) :
    ∀ l1 l2 : List PyScalar, ∀ e : CheckError, checkElems fuzz l1 l2 = .error e →
      e = .inconsistentOutputs ∨ ∃ pe, e = .pyErr pe := by
  intro l1
  induction l1 with
  | nil => intro l2 e h; cases l2 <;> simp [checkElems] at h
  | cons e1 t1 ih =>
    intro l2 e h
    cases l2 with
    | nil => simp [checkElems] at h
    | cons e2 t2 =>
      rw [checkElems] at h
      split at h
      · exact ih t2 e h
      · rename_i e2' he
        injection h with h
        subst h
        by_cases hf : isFloat e1.toVal
        · rw [if_pos hf] at he
          exact numCheck_error_shape _ _ _ he
        · rw [if_neg hf] at he
          exact strCheck_error_shape _ _ _ _ he

/-- With equal runtime types the per-key comparison never raises
InconsistentOutputTypes: the later branches only raise the other kinds. -/
theorem checkPair_sameType_no_type_error (fuzz : String → String → ℚ) (v1 v2 : PyVal)
    (hst : sameType v1 v2 = true)
    (h : checkPair fuzz v1 v2 = .error .inconsistentOutputTypes) : False := by
  cases v1 <;> cases v2 <;> (try simp [sameType] at hst)
  · simp [checkPair, sameType] at h
  · simp only [checkPair, sameType, isNum] at h
    simp only [Bool.not_true, Bool.false_eq_true, if_false, if_true, ite_true,
               reduceIte] at h
    rcases numCheck_error_shape _ _ _ h with h2 | ⟨pe, h2⟩ <;> simp at h2
  · simp only [checkPair, sameType, isNum] at h
    simp only [Bool.not_true, Bool.false_eq_true, if_false, if_true, ite_true,
               reduceIte] at h
    rcases numCheck_error_shape _ _ _ h with h2 | ⟨pe, h2⟩ <;> simp at h2
  · simp [checkPair, sameType, isNum] at h
    rcases strCheck_error_shape _ _ _ _ h with h2 | ⟨pe, h2⟩ <;> simp at h2
  · simp only [checkPair, sameType, isNum] at h
    simp only [Bool.not_true, Bool.false_eq_true, if_false, if_true, ite_true,
               reduceIte] at h
    rcases checkElems_error_shape _ _ _ _ h with h2 | ⟨pe, h2⟩ <;> simp at h2

/-- A per-key comparison error is one of the three comparison kinds. -/
theorem checkPair_error_shape (fuzz : String → String → ℚ) (v1 v2 : PyVal) (e : CheckError)
    (h : checkPair fuzz v1 v2 = .error e) :
    e = .inconsistentOutputTypes ∨ e = .inconsistentOutputs ∨ ∃ pe, e = .pyErr pe := by
  unfold checkPair at h
  split at h
  · injection h with h
    exact Or.inl h.symm
  · split at h
    · exact absurd h (by simp)
    · split at h
      · rcases numCheck_error_shape _ _ _ h with h2 | h2
        · exact Or.inr (Or.inl h2)
        · exact Or.inr (Or.inr h2)
      · split at h
        · rcases checkElems_error_shape _ _ _ _ h with h2 | h2
          · exact Or.inr (Or.inl h2)
          · exact Or.inr (Or.inr h2)
        · rcases strCheck_error_shape _ _ _ _ h with h2 | h2
          · exact Or.inr (Or.inl h2)
          · exact Or.inr (Or.inr h2)

/-- A key-loop error over a row has one of the three comparison kinds. -/
theorem checkPairs_error_shape (fuzz : String → String → ℚ) :
    ∀ l : List ((String × PyVal) × (String × PyVal)), ∀ e : CheckError,
      checkPairs fuzz l = .error e →
      e = .inconsistentOutputTypes ∨ e = .inconsistentOutputs ∨ ∃ pe, e = .pyErr pe := by
  intro l
  induction l with
  | nil => intro e h; simp [checkPairs] at h
  | cons p rest ih =>
    intro e h
    obtain ⟨kv1, kv2⟩ := p
    rw [checkPairs] at h
    split at h
    · exact ih e h
    · rename_i e2 he
      injection h with h
      subst h
      exact checkPair_error_shape _ _ _ _ he

/-- A row-loop error has one of the three comparison kinds. -/
theorem checkRows_error_shape (fuzz : String → String → ℚ) :
    ∀ l : List (PyRecord × PyRecord), ∀ e : CheckError,
      checkRows fuzz l = .error e →
      e = .inconsistentOutputTypes ∨ e = .inconsistentOutputs ∨ ∃ pe, e = .pyErr pe := by
  intro l
  induction l with
  | nil => intro e h; simp [checkRows] at h
  | cons p rest ih =>
    intro e h
    obtain ⟨r1, r2⟩ := p
    rw [checkRows] at h
    split at h
    · exact ih e h
    · rename_i e2 he
      injection h with h
      subst h
      exact checkPairs_error_shape _ _ _ he

/-- The comparison loops never raise MissingOutputs. -/
theorem checkRows_ne_missing (fuzz : String → String → ℚ)
    (l : List (PyRecord × PyRecord)) :
    checkRows fuzz l ≠ .error .missingOutputs := by
  intro h
  rcases checkRows_error_shape fuzz l _ h with h2 | h2 | ⟨pe, h2⟩ <;> simp at h2

/-- The relative-difference rule accepts a float compared with itself. -/
theorem is_below_self_float (q : ℚ) :
    is_below_difference_threshold (.vfloat q) (.vfloat q) = .ok true := by
  by_cases hq : q = 0
  · simp [is_below_difference_threshold, isZeroNum, pyEq, hq]
  · have hsum : q + q ≠ 0 := by
      intro h
      apply hq
      linarith
    simp [is_below_difference_threshold, isZeroNum, pyEq, toRat?, hq, hsum,
          DIFFERENCE_THRESHOLD]

/-- The relative-difference rule accepts an int compared with itself. -/
theorem is_below_self_int (a : ℤ) :
    is_below_difference_threshold (.vint a) (.vint a) = .ok true := by
  by_cases ha : a = 0
  · simp [is_below_difference_threshold, isZeroNum, pyEq, ha]
  · have hq : ((a : ℚ)) ≠ 0 := by exact_mod_cast ha
    have hsum : (a : ℚ) + (a : ℚ) ≠ 0 := by
      intro h
      apply hq
      linarith
    simp [is_below_difference_threshold, isZeroNum, pyEq, toRat?, ha, hsum,
          DIFFERENCE_THRESHOLD]

/-- A scalar-numeric value compared with itself passes the key comparison. -/
theorem checkPair_self (fuzz : String → String → ℚ) (v : PyVal)
    (h : scalarNumeric v = true) :
    checkPair fuzz v v = .ok () := by
  cases v with
  | vnone => simp [checkPair, sameType]
  | vint a => simp [checkPair, sameType, isNum, numCheck, is_below_self_int a]
  | vfloat q => simp [checkPair, sameType, isNum, numCheck, is_below_self_float q]
  | vstr s => simp [scalarNumeric] at h
  | vlist l => simp [scalarNumeric] at h

/-- A row all of whose values are scalar numeric passes the key loop when
compared with itself. -/
theorem checkPairs_self (fuzz : String → String → ℚ) :
    ∀ r : PyRecord, r.all (fun kv => scalarNumeric kv.2) = true →
      checkPairs fuzz (r.zip r) = .ok () := by
  intro r
  induction r with
  | nil => intro _; simp [checkPairs]
  | cons kv t ih =>
    intro h
    simp only [List.all_cons, Bool.and_eq_true] at h
    rw [List.zip_cons_cons, checkPairs, checkPair_self fuzz kv.2 h.1]
    exact ih h.2

/-- A numeric run result compared with itself passes all comparison loops. -/
theorem checkRows_self (fuzz : String → String → ℚ) :
    ∀ res : List PyRecord, NumericRecords res = true →
      checkRows fuzz (res.zip res) = .ok () := by
  intro res
  induction res with
  | nil => intro _; simp [checkRows]
  | cons r t ih =>
    intro h
    simp only [NumericRecords, List.all_cons, Bool.and_eq_true] at h
    rw [List.zip_cons_cons, checkRows, checkRecord, checkPairs_self fuzz r h.1]
    exact ih h.2

/-- Lookup misses exactly when no entry has the key. -/
theorem dictGet_eq_none_iff (d : List (String × PyVal)) (k : String) :
    dictGet d k = Option.none ↔ d.any (fun kv => kv.1 = k) = false := by
  induction d with
  | nil => simp [dictGet]
  | cons kv t ih =>
    obtain ⟨k2, v2⟩ := kv
    by_cases hk : k2 = k
    · subst hk
      simp [dictGet]
    · simp [dictGet, hk, ih]

/-- Lookup after in-place overwrite of a present key. -/
theorem dictGet_map_set (d : List (String × PyVal)) (k : String) (v : PyVal) :
    dictGet (d.map (fun kv => if kv.1 = k then (k, v) else kv)) k =
      (if d.any (fun kv => kv.1 = k) then some v else Option.none) := by
  induction d with
  | nil => simp [dictGet]
  | cons kv t ih =>
    obtain ⟨k2, v2⟩ := kv
    by_cases hk : k2 = k
    · subst hk
      have hhead : (if (k2, v2).1 = k2 then (k2, v) else (k2, v2)) = (k2, v) := by simp
      rw [List.map_cons, hhead, dictGet]
      simp
    · have hhead : (if (k2, v2).1 = k then (k, v) else (k2, v2)) = (k2, v2) := by
        simp [hk]
      rw [List.map_cons, hhead, dictGet, if_neg hk, ih]
      rw [List.any_cons, decide_eq_false hk, Bool.false_or]

/-- In-place overwrite of key k leaves lookups of other keys unchanged. -/
theorem dictGet_map_set_other (d : List (String × PyVal)) (k k2 : String) (v : PyVal)
    (hk : k2 ≠ k) :
    dictGet (d.map (fun kv => if kv.1 = k then (k, v) else kv)) k2 = dictGet d k2 := by
  induction d with
  | nil => simp
  | cons kv t ih =>
    obtain ⟨k3, v3⟩ := kv
    by_cases h3 : k3 = k
    · subst h3
      have hhead : (if (k3, v3).1 = k3 then (k3, v) else (k3, v3)) = (k3, v) := by simp
      rw [List.map_cons, hhead, dictGet, dictGet,
          if_neg (fun hc : k3 = k2 => hk hc.symm),
          if_neg (fun hc : k3 = k2 => hk hc.symm), ih]
    · have hhead : (if (k3, v3).1 = k then (k, v) else (k3, v3)) = (k3, v3) := by
        simp [h3]
      rw [List.map_cons, hhead, dictGet, dictGet, ih]

/-- Appending an entry with a different key leaves a lookup unchanged. -/
theorem dictGet_append_other (d : List (String × PyVal)) (k k2 : String) (v : PyVal)
    (hk : k2 ≠ k) :
    dictGet (d ++ [(k, v)]) k2 = dictGet d k2 := by
  induction d with
  | nil =>
    simp only [List.nil_append, dictGet]
    split_ifs with h
    · exact absurd h.symm hk
    · rfl
  | cons kv t ih =>
    obtain ⟨k3, v3⟩ := kv
    simp only [List.cons_append, dictGet]
    split_ifs <;> simp_all

/-- Lookup of the assigned key after dict assignment. -/
theorem dictGet_dictSet_self (d : List (String × PyVal)) (k : String) (v : PyVal) :
    dictGet (dictSet d k v) k = some v := by
  unfold dictSet
  split_ifs with h
  · rw [dictGet_map_set, if_pos h]
  · have hnone : dictGet d k = Option.none := by
      rw [dictGet_eq_none_iff]
      exact Bool.eq_false_iff.mpr (fun hc => h hc)
    clear h
    induction d with
    | nil => simp [dictGet]
    | cons kv t ih =>
      obtain ⟨k2, v2⟩ := kv
      by_cases hk : k2 = k
      · subst hk
        rw [dictGet, if_pos rfl] at hnone
        exact absurd hnone (by simp)
      · rw [dictGet, if_neg hk] at hnone
        rw [List.cons_append, dictGet, if_neg hk]
        exact ih hnone

/-- Lookup of a different key after dict assignment. -/
theorem dictGet_dictSet_other (d : List (String × PyVal)) (k k2 : String) (v : PyVal)
    (hk : k2 ≠ k) :
    dictGet (dictSet d k v) k2 = dictGet d k2 := by
  unfold dictSet
  split_ifs with h
  · exact dictGet_map_set_other d k k2 v hk
  · exact dictGet_append_other d k k2 v hk

/-!
The claims.
-/

/-- Claim C1, counterexample: the claimed iff fails at the numeric pair
a = 0, b = -1.  The source judges the pair inconsistent (one value is zero
and they differ), yet the claimed formula 100 * abs(a-b) / ((a+b)/2)
evaluates to -200, which is below 5, so the claimed right-hand side holds.
The iff as stated is therefore false at this input. -/
theorem relative_difference_rule_zero_negative :
    ¬ (is_below_difference_threshold (.vfloat 0) (.vfloat (-1)) = .ok true ↔
      (((0 : ℚ) = 0 ∨ (-1 : ℚ) = 0) ∧ (0 : ℚ) = -1) ∨
      100 * |(0 : ℚ) - (-1)| / (((0 : ℚ) + (-1)) / 2) < 5) := by
  norm_num [is_below_difference_threshold, isZeroNum, pyEq]

/-- Claim C1, amended: for numeric outputs a and b, whenever the
comparison does not divide by zero (that is, except when a = -b with both
nonzero, where the source raises ZeroDivisionError), the pair is judged
consistent iff either one of the two is exactly zero and the values are
equal, or neither is zero and 100 * abs(a-b) / ((a+b)/2) < 5. -/
theorem relative_difference_rule_characterization (a b : ℚ)
    (h : ¬(a ≠ 0 ∧ b ≠ 0 ∧ a + b = 0)) :
    is_below_difference_threshold (.vfloat a) (.vfloat b) = .ok true ↔
      (((a = 0 ∨ b = 0) ∧ a = b) ∨
       (a ≠ 0 ∧ b ≠ 0 ∧ 100 * |a - b| / ((a + b) / 2) < 5)) := by
  by_cases ha : a = 0
  · subst ha
    simp only [is_below_difference_threshold, isZeroNum, pyEq, DIFFERENCE_THRESHOLD]
    norm_num
  · by_cases hb : b = 0
    · subst hb
      simp only [is_below_difference_threshold, isZeroNum, pyEq, DIFFERENCE_THRESHOLD]
      norm_num [ha]
    · have hsum : a + b ≠ 0 := by
        intro hc
        exact h ⟨ha, hb, hc⟩
      simp only [is_below_difference_threshold, isZeroNum, pyEq, toRat?,
                 DIFFERENCE_THRESHOLD]
      norm_num [ha, hb, hsum]
      rw [if_neg (fun hc => by rcases hc with hc | hc <;> exact PyVal.noConfusion hc)]
      simp

/-- Claim C1, witness: at a = 100, b = 96 the relative difference is about
4.08 percent and the pair is judged consistent. -/
theorem relative_difference_rule_witness :
    is_below_difference_threshold (.vfloat 100) (.vfloat 96) = .ok true :=
  (relative_difference_rule_characterization 100 96 (by norm_num)).mpr
    (Or.inr ⟨by norm_num, by norm_num, by norm_num⟩)

/-- Claim C2, counterexample: a key whose first value is None and whose
second value is the float 1 is not skipped: the runtime-type test runs
first and raises InconsistentOutputTypes, so the claim that no check is
performed on the second value and no error is raised is false. -/
theorem null_first_value_type_error :
    check_consistent_output fuzz0 [[("key1", PyVal.vnone)]] [[("key1", PyVal.vfloat 1)]]
        1 =
      (false, some CheckError.inconsistentOutputTypes) := by decide

/-- Claim C2, amended: a key whose first value is None is skipped (treated
as consistent) exactly when the second value is also None; when the second
value has any other runtime type, the type test that precedes the None
skip raises InconsistentOutputTypes. -/
theorem null_first_value_skip_iff_both_null (fuzz : String → String → ℚ) (v2 : PyVal) :
    checkPair fuzz .vnone v2 =
      (if v2 = .vnone then .ok () else .error .inconsistentOutputTypes) := by
  cases v2 <;> simp [checkPair, sameType]

/-- Claim C3: evaluation of _check_model_task at the failing input.  The
single-entry value Classification, a member of the vocabulary, is
rejected with InvalidEntry, because a Task string without the separator
is iterated character by character; the comma-separated values behave as
the claim states. -/
theorem task_vocabulary_single_entry_rejected :
    check_model_task { sample_card with Task := "Classification" } =
        .error (.invalidEntry "Task") ∧
    check_model_task { sample_card with Task := "Classification, Regression" } =
        .ok () ∧
    check_model_task { sample_card with Task := "Classification, Foo" } =
        .error (.invalidEntry "Task") := by
  refine ⟨?_, ?_, ?_⟩ <;> decide

/-- Claim C4, counterexample: a full run in which the card passes all nine
checks, both model invocations complete, and the two duplicate runs are
identical of the expected length still writes a report whose bash flag is
false: no statement of the source ever sets run_using_bash, so the five
flags are never all true. -/
theorem run_report_bash_flag_false :
    model_tester_run "eos0t01" sample_card fuzz0 true true (null_rows 5) (null_rows 5)
        0 0 =
      .ok (make_output 0 0 true true true true false) ∧
    (make_output 0 0 true true true true false).bash_ok = false := by
  constructor
  · have h1 : check_information "eos0t01" sample_card = .ok () := by decide
    have h2 : check_consistent_output fuzz0 (null_rows 5) (null_rows 5) NUM_SAMPLES =
        (true, Option.none) := by decide
    simp [model_tester_run, h1, h2]
  · rfl

/-- Claim C4, amended: when the card passes all nine metadata checks, the
single-input and example runs complete, and the two duplicate runs produce
identical numeric outputs of the expected length, the written report has
the four flags basic checks, single input, example input and outputs
consistent true, the bash flag false (the source never assigns
run_using_bash after its initialisation), and non-negative size and time
fields given non-negative inputs. -/
theorem run_report_flags_on_success (model_id : String) (card : ModelCard)
    (fuzz : String → String → ℚ) (res1 res2 : List PyRecord) (repo_size elapsed : ℚ)
    (hcard : check_information model_id card = .ok ())
    (hres : res1 = res2) (hlen : res1.length = NUM_SAMPLES)
    (hnum : NumericRecords res1 = true)
    (hsize : 0 ≤ repo_size) (htime : 0 ≤ elapsed) :
    ∃ r : TestReport,
      model_tester_run model_id card fuzz true true res1 res2 repo_size elapsed =
        .ok r ∧
      r.basic_checks_passed = true ∧ r.single_input_ok = true ∧
      r.example_input_ok = true ∧ r.outputs_consistent = true ∧ r.bash_ok = false ∧
      0 ≤ r.size_kb ∧ 0 ≤ r.size_mb ∧ 0 ≤ r.size_gb ∧ 0 ≤ r.time_seconds := by
  subst hres
  have hrows : checkRows fuzz (res1.zip res1) = .ok () := checkRows_self fuzz res1 hnum
  have hcc : check_consistent_output fuzz res1 res1 NUM_SAMPLES =
      (true, Option.none) := by
    simp only [check_consistent_output, hrows]
    rw [List.length_zip, min_self, hlen]
    simp
  refine ⟨make_output repo_size elapsed true true true true false, ?_,
          rfl, rfl, rfl, rfl, rfl, ?_, ?_, ?_, htime⟩
  · simp [model_tester_run, hcard, hcc]
  · show (0 : ℚ) ≤ repo_size / 1024
    exact div_nonneg hsize (by norm_num)
  · show (0 : ℚ) ≤ repo_size / 1024 / 1024
    exact div_nonneg (div_nonneg hsize (by norm_num)) (by norm_num)
  · show (0 : ℚ) ≤ repo_size / 1024 / 1024 / 1024
    exact div_nonneg (div_nonneg (div_nonneg hsize (by norm_num)) (by norm_num))
      (by norm_num)

/-- Claim C4, witness: the amended statement at a concrete passing run. -/
theorem run_report_flags_on_success_witness :
    ∃ r : TestReport,
      model_tester_run "eos0t01" sample_card fuzz0 true true (null_rows 5)
          (null_rows 5) 0 0 = .ok r ∧
      r.basic_checks_passed = true ∧ r.single_input_ok = true ∧
      r.example_input_ok = true ∧ r.outputs_consistent = true ∧ r.bash_ok = false ∧
      0 ≤ r.size_kb ∧ 0 ≤ r.size_mb ∧ 0 ≤ r.size_gb ∧ 0 ≤ r.time_seconds :=
  run_report_flags_on_success "eos0t01" sample_card fuzz0 (null_rows 5) (null_rows 5)
    0 0 (by decide) rfl (by decide) (by decide) (by norm_num) (by norm_num)

/-- Claim C5: a pair of string values, as a plain output or as the head
elements of two list outputs, is judged consistent exactly when the
similarity score of the external scorer exceeds the threshold 0.95
written in the source; a score at or below it raises
InconsistentOutputs. -/
theorem string_similarity_threshold_rule (fuzz : String → String → ℚ)
    (s1 s2 : String) (t1 t2 : List PyScalar) :
    (checkPair fuzz (.vstr s1) (.vstr s2) =
      (if fuzz s1 s2 ≤ 0.95 then .error .inconsistentOutputs else .ok ())) ∧
    (checkElems fuzz (.sstr s1 :: t1) (.sstr s2 :: t2) =
      (if fuzz s1 s2 ≤ 0.95 then .error .inconsistentOutputs
       else checkElems fuzz t1 t2)) := by
  constructor
  · simp only [checkPair, sameType, isNum, strCheck, compare_output_strings]
    simp
  · rw [checkElems]
    simp only [PyScalar.toVal, isFloat, strCheck, compare_output_strings]
    simp
    by_cases hr : fuzz s1 s2 ≤ 0.95 <;> simp [hr]

/-- Claim C6, counterexample: a run whose comparisons all pass but whose
row count (1) differs from the expected 5 raises MissingOutputs with the
consistent-output flag already set to true: the source sets the flag
before the row-count test, so the flag is not unset when this error is
raised. -/
theorem missing_outputs_flag_already_set :
    check_consistent_output fuzz0 (null_rows 1) (null_rows 1) 5 =
      (true, some CheckError.missingOutputs) := by decide

/-- Claim C6, amended: when check_consistent_output raises an error, the
consistent-output flag is still unset exactly when the error is not
MissingOutputs: comparison failures (InconsistentOutputTypes,
InconsistentOutputs, escaped Python exceptions) leave it false, while
MissingOutputs is raised after the flag has been set to true. -/
theorem failure_flag_characterization (fuzz : String → String → ℚ)
    (res1 res2 : List PyRecord) (N : ℕ) (e : CheckError)
    (h : (check_consistent_output fuzz res1 res2 N).2 = some e) :
    ((check_consistent_output fuzz res1 res2 N).1 = false ↔ e ≠ .missingOutputs) := by
  cases hcr : checkRows fuzz (res1.zip res2) with
  | ok u =>
    cases u
    simp only [check_consistent_output, hcr] at h ⊢
    split_ifs at h ⊢ with hN
    have he : e = .missingOutputs := (Option.some.inj h).symm
    subst he
    simp
  | error e2 =>
    simp only [check_consistent_output, hcr] at h ⊢
    have he : e2 = e := Option.some.inj h
    subst he
    simp only [eq_self_iff_true, true_iff]
    intro hc
    subst hc
    exact absurd hcr (checkRows_ne_missing fuzz _)

/-- Claim C6, witness: the amended statement at a concrete run raising
MissingOutputs, where the flag is true. -/
theorem failure_flag_characterization_witness :
    (check_consistent_output fuzz0 (null_rows 1) (null_rows 1) 5).1 = false ↔
      CheckError.missingOutputs ≠ CheckError.missingOutputs :=
  failure_flag_characterization fuzz0 (null_rows 1) (null_rows 1) 5
    CheckError.missingOutputs (by decide)

/-- Claim C7: for two run results of equal length whose comparisons all
pass, check_consistent_output reports MissingOutputs exactly when the
number of output rows differs from the expected count; and MissingOutputs
is reported only when every row and key comparison has succeeded. -/
theorem row_count_check_after_comparisons (fuzz : String → String → ℚ)
    (res1 res2 : List PyRecord) (N : ℕ)
    (hlen : res1.length = res2.length) :
    (checkRows fuzz (res1.zip res2) = .ok () →
      ((check_consistent_output fuzz res1 res2 N).2 = some .missingOutputs ↔
        res1.length ≠ N)) ∧
    ((check_consistent_output fuzz res1 res2 N).2 = some .missingOutputs →
      checkRows fuzz (res1.zip res2) = .ok ()) := by
  have hz : (res1.zip res2).length = res1.length := by
    rw [List.length_zip, hlen, min_self]
  constructor
  · intro hok
    simp only [check_consistent_output, hok]
    rw [hz]
    split_ifs with hN
    · exact iff_of_true rfl (Ne.symm hN)
    · push_neg at hN
      subst hN
      simp
  · intro h
    cases hcr : checkRows fuzz (res1.zip res2) with
    | ok u =>
      cases u
      rfl
    | error e2 =>
      simp only [check_consistent_output, hcr] at h
      have he : e2 = .missingOutputs := Option.some.inj h
      subst he
      exact absurd hcr (checkRows_ne_missing fuzz _)

/-- Claim C7, witness: with 5 expected inputs, a pair of identical passing
results of length 4 raises MissingOutputs (and the iff of the claim holds
at that input). -/
theorem row_count_check_witness :
    ((check_consistent_output fuzz0 (null_rows 4) (null_rows 4) 5).2 =
        some CheckError.missingOutputs ↔ (null_rows 4).length ≠ 5) ∧
    (check_consistent_output fuzz0 (null_rows 4) (null_rows 4) 5).2 =
      some CheckError.missingOutputs :=
  ⟨(row_count_check_after_comparisons fuzz0 (null_rows 4) (null_rows 4) 5 rfl).1
      (by decide),
   ((row_count_check_after_comparisons fuzz0 (null_rows 4) (null_rows 4) 5 rfl).1
      (by decide)).mpr (by decide)⟩

/-- Claim C8, counterexample: the numeric pair 1 (int) and 1.0 (float),
equal in value, raises InconsistentOutputTypes: the runtime-type test
distinguishes int from float, so the relative-difference rule is never
reached for a mixed int and float pair, refuting the claim that a pair of
two numbers never raises InconsistentOutputTypes. -/
theorem int_float_pair_type_error :
    check_consistent_output fuzz0 [[("key1", PyVal.vint 1)]]
        [[("key1", PyVal.vfloat 1)]] 1 =
      (false, some CheckError.inconsistentOutputTypes) := by decide

/-- Claim C8, amended: the per-key comparison raises
InconsistentOutputTypes exactly when the two values have different runtime
types, where int and float count as different types; and for two values of
the same numeric type (both int or both float) it applies the
relative-difference rule. -/
theorem type_mismatch_characterization (fuzz : String → String → ℚ)
    (v1 v2 : PyVal) (a b : ℤ) (p q : ℚ) :
    (checkPair fuzz v1 v2 = .error .inconsistentOutputTypes ↔
      sameType v1 v2 = false) ∧
    checkPair fuzz (.vint a) (.vint b) = numCheck (.vint a) (.vint b) ∧
    checkPair fuzz (.vfloat p) (.vfloat q) = numCheck (.vfloat p) (.vfloat q) := by
  refine ⟨⟨?_, ?_⟩, ?_, ?_⟩
  · intro h
    cases hb : sameType v1 v2
    · rfl
    · exact absurd (checkPair_sameType_no_type_error fuzz v1 v2 hb h) (fun hc => hc)
  · intro h
    rw [checkPair.eq_def, h]
    simp
  · simp [checkPair, sameType, isNum]
  · simp [checkPair, sameType, isNum]

/-- Claim C9: the Input check accepts exactly the three one-entry values
Compound, Protein and Text of the vocabulary (the field holds a list of
entries in the card, and a single value is the one-entry list); every
other value is rejected with InvalidEntry for the Input field. -/
theorem input_vocabulary_characterization (card : ModelCard) :
    (check_model_input card = .ok () ↔
      (card.Input = ["Compound"] ∨ card.Input = ["Protein"] ∨
        card.Input = ["Text"])) ∧
    (check_model_input card = .error (.invalidEntry "Input") ↔
      ¬(card.Input = ["Compound"] ∨ card.Input = ["Protein"] ∨
        card.Input = ["Text"])) := by
  unfold check_model_input valid_inputs
  split_ifs with h <;>
    simp only [List.mem_cons, List.not_mem_nil, or_false] at h <;>
    constructor <;> simp_all

/-- Claim C10: when the service-class file, the size file or the
information file is missing, modify_information returns without writing
and the information file is unchanged; otherwise it rewrites the
information record with the two keys service_class (the stripped file
content) and size added or overwritten and every other key preserved. -/
theorem modify_information_characterization (service_class_file : Option String)
    (size_file : Option PyVal) (information_file : Option (List (String × PyVal))) :
    ((service_class_file = Option.none ∨ size_file = Option.none ∨
        information_file = Option.none) →
      modify_information service_class_file size_file information_file =
        information_file) ∧
    (∀ (sc : String) (size : PyVal) (data : List (String × PyVal)),
      service_class_file = some sc → size_file = some size →
      information_file = some data →
      ∃ d2, modify_information service_class_file size_file information_file =
          some d2 ∧
        dictGet d2 "service_class" = some (.vstr sc.trim) ∧
        dictGet d2 "size" = some size ∧
        ∀ k, k ≠ "service_class" → k ≠ "size" → dictGet d2 k = dictGet data k) := by
  constructor
  · rintro (h | h | h)
    · subst h
      rfl
    · subst h
      cases service_class_file with
      | none => rfl
      | some sc => rfl
    · subst h
      cases service_class_file with
      | none => rfl
      | some sc =>
        cases size_file with
        | none => rfl
        | some z => rfl
  · intro sc size data h1 h2 h3
    subst h1
    subst h2
    subst h3
    refine ⟨dictSet (dictSet data "service_class" (.vstr sc.trim)) "size" size,
            rfl, ?_, ?_, ?_⟩
    · rw [dictGet_dictSet_other _ _ _ _ (by decide), dictGet_dictSet_self]
    · rw [dictGet_dictSet_self]
    · intro k hk1 hk2
      rw [dictGet_dictSet_other _ _ _ _ hk2, dictGet_dictSet_other _ _ _ _ hk1]
